import Mathlib

/-!
Verification of the fake RBE server harness (`go/pkg/fakes/server.go`):
a shallow embedding of `NewServer`, `Server.Clear`, `TestEnv.Set` and the
result-shaping options (`OutputFile`, `StdOut`, `StdOutRaw`, `StdErr`,
`StdErrRaw`, `ExecutionCacheHit`), with components whose bodies live
outside the given sources (digesting, tree building, the CAS / ActionCache
/ Exec fakes' own state) modelled from the specification.
-/

/-- The wire-level Command message produced by `Command.ToREProto`.
Modelled from the spec: the proto carries the command's argument vector
(identifier fields filled by defaulting are not part of the proto). -/
structure CommandPb where
  arguments : List String
deriving DecidableEq, Repr

/-- A content fingerprint. Modelled from the spec: `digestOf` is
deterministic and collision-free, so a digest is represented by what was
digested: raw bytes, a serialized Command message, or a serialized Action
message (an Action's fields are carried inline: its command digest, its
input-root digest, its do-not-cache flag and its optional timeout). -/
inductive Digest where
  | ofBytes (bytes : String)
  | ofCommand (c : CommandPb)
  | ofAction (commandDigest : Digest) (inputRootDigest : Digest)
      (doNotCache : Bool) (timeout : Option Int)
deriving DecidableEq, Repr

/-- Fake of `digest.Empty`: the digest of the empty byte sequence. -/
def Digest.emptyDg : Digest := Digest.ofBytes ""

/-- An output-file entry of an ActionResult message. -/
structure OutputFilePb where
  path : String
  digest : Digest
deriving DecidableEq, Repr

/-- The ActionResult message (the fields the fake harness touches). -/
structure ActionResult where
  exitCode : Int
  outputFiles : List OutputFilePb
  stdoutDigest : Option Digest
  stderrDigest : Option Digest
  stdoutRaw : String
  stderrRaw : String
deriving DecidableEq, Repr

/-- A gRPC status: numeric code plus message. -/
structure GrpcStatus where
  code : Nat
  message : String
deriving DecidableEq, Repr

/-- gRPC code `OK`. -/
def codeOK : Nat := 0
/-- gRPC code `Unknown`. -/
def codeUnknown : Nat := 2
/-- gRPC code `DeadlineExceeded`. -/
def codeDeadlineExceeded : Nat := 4
/-- gRPC code `Internal`. -/
def codeInternal : Nat := 13

/-- A Go error value as seen by `status.FromError`: nil, an error carrying
a gRPC status, or a plain non-status error. -/
inductive GoError where
  | nil
  | grpc (st : GrpcStatus)
  | plain (msg : String)
deriving DecidableEq, Repr

/-- Model of `status.FromError`: returns the status and whether the error converts
to one. A nil error converts to an `OK` status; a plain error yields
`Unknown` with ok = false. -/
def statusFromError : GoError → GrpcStatus × Bool
  | GoError.nil => (⟨codeOK, ""⟩, true)
  | GoError.grpc st => (st, true)
  | GoError.plain m => (⟨codeUnknown, m⟩, false)

/-- The closed set of command result statuses from `pkg/command`. -/
inductive ResultStatus where
  | success
  | cacheHit
  | nonZeroExit
  | timeout
  | interrupted
  | remoteError
  | localError
deriving DecidableEq, Repr

/-- A `command.Result`: the fields `TestEnv.Set` reads. -/
structure CmdResult where
  status : ResultStatus
  exitCode : Int
  err : GoError
deriving DecidableEq, Repr

/-- An input specification. Modelled from the spec: it enumerates declared
input paths; `unreadable` marks a declared, non-excluded path that cannot
be read, if any (the Tree Builder must surface it, not skip it). -/
structure InputSpec where
  inputPaths : List String
  unreadable : Option String
deriving DecidableEq, Repr

/-- A `command.Command`: the fields `TestEnv.Set` touches. Modelled from
the spec: a local command with arguments, an execution root, an input
specification, a timeout, and a defaultable identifier field. -/
structure Command where
  args : List String
  execRoot : String
  inputSpec : InputSpec
  timeout : Int
  toolName : String
deriving DecidableEq, Repr

/-- Model of `Command.FillDefaultFieldValues`. Modelled from the spec: defaultable
identifier fields that are empty are filled in place with fixed defaults;
already-set fields and all digested fields are left alone. -/
def Command.FillDefaultFieldValues (c : Command) : Command :=
  { c with toolName := if c.toolName = "" then "remote-client" else c.toolName }

/-- Model of `Command.ToREProto`. Modelled from the spec: the wire Command message
is a deterministic function of the command's digested fields (identifier
fields are not serialized). -/
def Command.ToREProto (c : Command) : CommandPb :=
  ⟨c.args⟩

/-- Model of `command.ExecutionOptions`: the field `TestEnv.Set` reads. -/
structure ExecutionOptions where
  doNotCache : Bool
deriving DecidableEq, Repr

/-- The in-memory file tree produced by `rc.BuildTreeFromInputs`.
Modelled from the spec: a Merkle tree determined by the execution root and
the declared inputs. -/
structure FileTree where
  execRoot : String
  inputPaths : List String
deriving DecidableEq, Repr

/-- Model of `rc.BuildTreeFromInputs`. Modelled from the spec: walks the declared
inputs under the execution root; surfaces a filesystem error if a
declared, non-excluded path is unreadable, and otherwise produces the
tree. -/
def BuildTreeFromInputs (execRoot : String) (spec : InputSpec) :
    Except String FileTree :=
  match spec.unreadable with
  | some p => Except.error ("unreadable input: " ++ p)
  | none => Except.ok ⟨execRoot, spec.inputPaths⟩

/-- The root digest of a packaged tree. Modelled from the spec: the
digest of the tree's canonical serialization. -/
def FileTree.rootDigest (ft : FileTree) : Digest :=
  Digest.ofBytes (String.intercalate "\n" (ft.execRoot :: ft.inputPaths))

/-- Model of `rc.PackageTree`. Modelled from the spec: serializes every reachable
node of the tree and returns the root directory's digest. -/
def PackageTree (ft : FileTree) : Except String Digest :=
  Except.ok ft.rootDigest

/-- The fake CAS: an id standing for its allocation identity, plus the
stored blobs keyed by digest. Per-store state modelled from the spec
(accept blobs; clear all recorded state). -/
structure CAS where
  id : Nat
  blobs : List (Digest × String)
deriving DecidableEq, Repr

/-- Operation `CAS.Put`: stores the bytes keyed by their digest and returns the
digest. -/
def CAS.Put (c : CAS) (bytes : String) : Digest × CAS :=
  (Digest.ofBytes bytes, { c with blobs := (Digest.ofBytes bytes, bytes) :: c.blobs })

/-- Operation `CAS.Clear`: drops all stored blobs. -/
def CAS.ClearStore (c : CAS) : CAS :=
  { c with blobs := [] }

/-- The fake ActionCache: an allocation id plus stored results keyed by
Action digest. Modelled from the spec (accept/return action results;
clear all recorded state). -/
structure ActionCache where
  id : Nat
  results : List (Digest × ActionResult)
deriving DecidableEq, Repr

/-- Operation `ActionCache.Put`: stores the result keyed by the Action digest. -/
def ActionCache.Put (c : ActionCache) (dg : Digest) (ar : ActionResult) : ActionCache :=
  { c with results := (dg, ar) :: c.results }

/-- Operation `ActionCache.Clear`: drops all stored results. -/
def ActionCache.ClearStore (c : ActionCache) : ActionCache :=
  { c with results := [] }

/-- The fake Exec service's state. Modelled from the spec: it is
constructed over an ActionCache and a CAS (held by reference, here the
ids of the instances it was built over), and records the configured
ActionResult, a forced status, the cached flag, and registered extra
output blobs. -/
structure ExecState where
  acRef : Nat
  casRef : Nat
  actionResult : Option ActionResult
  forcedStatus : Option GrpcStatus
  cached : Bool
  outputBlobs : List String
deriving DecidableEq, Repr

/-- Constructor `NewExec`: a fresh Exec over the given ActionCache and CAS. -/
def NewExec (ac : ActionCache) (cas : CAS) : ExecState :=
  ⟨ac.id, cas.id, none, none, false, []⟩

/-- Operation `Exec.Clear`: resets all recorded execution state, keeping the
references to the ActionCache and CAS it was constructed over. -/
def ExecState.ClearStore (e : ExecState) : ExecState :=
  { e with actionResult := none, forcedStatus := none, cached := false, outputBlobs := [] }

/-- The fake server: the three stateful fakes plus the opaque network
listener and gRPC server handles. -/
structure Server where
  exec : ExecState
  cas : CAS
  actionCache : ActionCache
  listener : Nat
  srvHandle : Nat
deriving DecidableEq, Repr

/-- Constructor `NewCAS`: a fresh, empty CAS with a fresh allocation id. -/
def NewCAS (n : Nat) : CAS := ⟨n, []⟩

/-- Constructor `NewActionCache`: a fresh, empty ActionCache with a fresh id. -/
def NewActionCache (n : Nat) : ActionCache := ⟨n, []⟩

/-- Constructor `NewServer`: allocates a fresh CAS, a fresh ActionCache, an Exec
constructed over exactly those two instances, and fresh listener and gRPC
server handles. Allocation identity is made explicit by threading an
allocation counter; the second component is the counter left for later
allocations. -/
def NewServer (alloc : Nat) : Server × Nat :=
  let cas := NewCAS alloc
  let ac := NewActionCache (alloc + 1)
  (⟨NewExec ac cas, cas, ac, alloc + 2, alloc + 3⟩, alloc + 4)

/-- Operation `Server.Clear`: clears the CAS, the ActionCache and the Exec state. -/
def Server.Clear (s : Server) : Server :=
  { s with
    cas := s.cas.ClearStore
    actionCache := s.actionCache.ClearStore
    exec := s.exec.ClearStore }

/-- The closed set of result-shaping options accepted by `TestEnv.Set`. -/
inductive FakeOption where
  | outputFile (path : String) (contents : String)
  | stdOut (contents : String)
  | stdOutRaw (contents : String)
  | stdErr (contents : String)
  | stdErrRaw (contents : String)
  | executionCacheHit (hit : Bool)
deriving DecidableEq, Repr

/-- The `Apply` method of each option, acting on the ActionResult under
construction and on the server (`OutputFile.Apply`, `StdOut.Apply`,
`StdOutRaw.Apply`, `StdErr.Apply`, `StdErrRaw.Apply`,
`ExecutionCacheHit.Apply` in the source). -/
def FakeOption.Apply (o : FakeOption) (ar : ActionResult) (s : Server) :
    ActionResult × Server :=
  match o with
  | FakeOption.outputFile path contents =>
      let s := { s with exec := { s.exec with outputBlobs := s.exec.outputBlobs ++ [contents] } }
      let (dg, cas) := s.cas.Put contents
      let s := { s with cas := cas }
      ({ ar with outputFiles := ar.outputFiles ++ [⟨path, dg⟩] }, s)
  | FakeOption.stdOut contents =>
      let s := { s with exec := { s.exec with outputBlobs := s.exec.outputBlobs ++ [contents] } }
      let (dg, cas) := s.cas.Put contents
      let s := { s with cas := cas }
      ({ ar with stdoutDigest := some dg }, s)
  | FakeOption.stdOutRaw contents =>
      ({ ar with stdoutRaw := contents }, s)
  | FakeOption.stdErr contents =>
      let s := { s with exec := { s.exec with outputBlobs := s.exec.outputBlobs ++ [contents] } }
      let (dg, cas) := s.cas.Put contents
      let s := { s with cas := cas }
      ({ ar with stderrDigest := some dg }, s)
  | FakeOption.stdErrRaw contents =>
      ({ ar with stderrRaw := contents }, s)
  | FakeOption.executionCacheHit hit =>
      (ar, { s with exec := { s.exec with cached := hit } })

/-- The option loop of `TestEnv.Set`: applies the options in order, each
to the ActionResult and server produced by the previous one. -/
def applyOpts (opts : List FakeOption) (ar : ActionResult) (s : Server) :
    ActionResult × Server :=
  opts.foldl (fun p o => o.Apply p.1 p.2) (ar, s)

/-- What `TestEnv.Set` returns and leaves behind: whether the test failed
fatally, the two returned digests, the server after the call, and the
caller's command after the call (Go mutates it in place). -/
structure SetOutcome where
  fatal : Bool
  cmdDg : Digest
  acDg : Digest
  server : Server
  cmd : Command
deriving DecidableEq, Repr

/-- Model of `TestEnv.Set` (the harness wrapper state reduced to the server it
drives): fills the command's defaults, builds and packages the input
tree (fatally failing the test on error), digests the command proto,
builds and digests the Action, seeds the ActionResult with the exit
code, applies the options in order, installs the final ActionResult into
the fake Exec, then configures the fake per the requested result
status. -/
def SetFake (srv : Server) (cmd : Command) (opt : ExecutionOptions)
    (res : CmdResult) (opts : List FakeOption) : SetOutcome :=
  let cmd := cmd.FillDefaultFieldValues
  match BuildTreeFromInputs cmd.execRoot cmd.inputSpec with
  | Except.error _ => ⟨true, Digest.emptyDg, Digest.emptyDg, srv, cmd⟩
  | Except.ok ft =>
    match PackageTree ft with
    | Except.error _ => ⟨true, Digest.emptyDg, Digest.emptyDg, srv, cmd⟩
    | Except.ok root =>
      let cmdPb := cmd.ToREProto
      let cmdDg := Digest.ofCommand cmdPb
      let acTimeout : Option Int := if cmd.timeout > 0 then some cmd.timeout else none
      let acDg := Digest.ofAction cmdDg root opt.doNotCache acTimeout
      let ar : ActionResult := ⟨res.exitCode, [], none, none, "", ""⟩
      let (ar, s) := applyOpts opts ar srv
      let s := { s with exec := { s.exec with actionResult := some ar } }
      let s :=
        match res.status with
        | ResultStatus.timeout =>
            { s with exec := { s.exec with forcedStatus := some ⟨codeDeadlineExceeded, "timeout"⟩ } }
        | ResultStatus.remoteError =>
            let (st, ok) := statusFromError res.err
            let st := if ok then st else ⟨codeInternal, "remote error"⟩
            { s with exec := { s.exec with forcedStatus := some st } }
        | ResultStatus.cacheHit =>
            if !s.exec.cached then
              { s with actionCache := s.actionCache.Put acDg ar }
            else s
        | _ => s
      ⟨false, cmdDg, acDg, s, cmd⟩

/-- The value of the `cached` flag left by the last `ExecutionCacheHit`
element of an option list, if any. -/
def lastECH : List FakeOption → Option Bool
  | [] => none
  | o :: rest =>
      match lastECH rest with
      | some b => some b
      | none =>
          match o with
          | FakeOption.executionCacheHit b => some b
          | _ => none

/-- A concrete readable command used to exercise the embedding. -/
def cmdW : Command := ⟨["echo", "hi"], "/root", ⟨["a.txt"], none⟩, 5, ""⟩

/-- A concrete command declaring an unreadable input path. -/
def cmdBad : Command := ⟨["echo"], "/root", ⟨["a.txt"], some "a.txt"⟩, 0, "tool"⟩

/-- A concrete freshly allocated server. -/
def srvW : Server := (NewServer 0).1

/-- Concrete execution options. -/
def optW : ExecutionOptions := ⟨false⟩

/-- A concrete cache-hit result. -/
def resHit : CmdResult := ⟨ResultStatus.cacheHit, 0, GoError.nil⟩

/-! ## Helper lemmas shared by several claims -/

/-- Unfolding step for the option loop. -/
lemma applyOpts_cons (o : FakeOption) (opts : List FakeOption)
    (ar : ActionResult) (s : Server) :
    applyOpts (o :: opts) ar s =
      applyOpts opts (o.Apply ar s).1 (o.Apply ar s).2 := by
  simp [applyOpts, List.foldl]

/-- The empty option loop is the identity. -/
lemma applyOpts_nil (ar : ActionResult) (s : Server) :
    applyOpts [] ar s = (ar, s) := rfl

/-- No option `Apply` touches the ActionCache. -/
lemma apply_actionCache (o : FakeOption) (ar : ActionResult) (s : Server) :
    (o.Apply ar s).2.actionCache = s.actionCache := by
  cases o <;> rfl

/-- The option loop leaves the ActionCache unchanged. -/
lemma applyOpts_actionCache (opts : List FakeOption) (ar : ActionResult) (s : Server) :
    (applyOpts opts ar s).2.actionCache = s.actionCache := by
  induction opts generalizing ar s with
  | nil => rfl
  | cons o rest ih =>
      rw [applyOpts_cons]
      rw [ih]
      exact apply_actionCache o ar s

/-- No option `Apply` touches the forced execution status. -/
lemma apply_forcedStatus (o : FakeOption) (ar : ActionResult) (s : Server) :
    (o.Apply ar s).2.exec.forcedStatus = s.exec.forcedStatus := by
  cases o <;> rfl

/-- The option loop leaves the forced execution status unchanged. -/
lemma applyOpts_forcedStatus (opts : List FakeOption) (ar : ActionResult) (s : Server) :
    (applyOpts opts ar s).2.exec.forcedStatus = s.exec.forcedStatus := by
  induction opts generalizing ar s with
  | nil => rfl
  | cons o rest ih =>
      rw [applyOpts_cons]
      rw [ih]
      exact apply_forcedStatus o ar s

/-- After the option loop, the `cached` flag is the value set by the last
`ExecutionCacheHit` option, or the initial value if there is none. -/
lemma applyOpts_cached (opts : List FakeOption) (ar : ActionResult) (s : Server) :
    (applyOpts opts ar s).2.exec.cached = (lastECH opts).getD s.exec.cached := by
  induction opts generalizing ar s with
  | nil => rfl
  | cons o rest ih =>
      rw [applyOpts_cons, ih]
      rcases h : lastECH rest with _ | b
      · simp only [lastECH, h]
        cases o <;> rfl
      · simp only [lastECH, h]
        rfl

/-! ## Claim theorems -/

/-- Claim C4: each of `OutputFile.Apply`, `StdOut.Apply` and
`StdErr.Apply` stores the option's bytes in the fake CAS, appends the
bytes to `Exec.OutputBlobs`, and records the content's digest in the
ActionResult (as an OutputFiles entry, StdoutDigest, or StderrDigest
respectively); `StdOutRaw.Apply` and `StdErrRaw.Apply` write the bytes
directly into the ActionResult's raw field and leave the server (hence
the CAS) untouched. -/
theorem option_apply_effects (ar : ActionResult) (s : Server)
    (path contents : String) :
    (FakeOption.Apply (FakeOption.outputFile path contents) ar s =
      ({ ar with outputFiles := ar.outputFiles ++ [⟨path, Digest.ofBytes contents⟩] },
       { s with
         exec := { s.exec with outputBlobs := s.exec.outputBlobs ++ [contents] },
         cas := { s.cas with blobs := (Digest.ofBytes contents, contents) :: s.cas.blobs } }))
    ∧ (FakeOption.Apply (FakeOption.stdOut contents) ar s =
      ({ ar with stdoutDigest := some (Digest.ofBytes contents) },
       { s with
         exec := { s.exec with outputBlobs := s.exec.outputBlobs ++ [contents] },
         cas := { s.cas with blobs := (Digest.ofBytes contents, contents) :: s.cas.blobs } }))
    ∧ (FakeOption.Apply (FakeOption.stdErr contents) ar s =
      ({ ar with stderrDigest := some (Digest.ofBytes contents) },
       { s with
         exec := { s.exec with outputBlobs := s.exec.outputBlobs ++ [contents] },
         cas := { s.cas with blobs := (Digest.ofBytes contents, contents) :: s.cas.blobs } }))
    ∧ (FakeOption.Apply (FakeOption.stdOutRaw contents) ar s =
      ({ ar with stdoutRaw := contents }, s))
    ∧ (FakeOption.Apply (FakeOption.stdErrRaw contents) ar s =
      ({ ar with stderrRaw := contents }, s)) :=
  ⟨rfl, rfl, rfl, rfl, rfl⟩

/-- Claim C5: `Server.Clear` empties the CAS store, empties the
ActionCache store, and resets the Exec state (configured result, forced
status, cached flag, registered output blobs), while preserving the
stores' identities, the Exec's references to them, and the listener and
gRPC server handles. -/
theorem server_clear_resets_state (s : Server) :
    s.Clear.cas = ⟨s.cas.id, []⟩
    ∧ s.Clear.actionCache = ⟨s.actionCache.id, []⟩
    ∧ s.Clear.exec = ⟨s.exec.acRef, s.exec.casRef, none, none, false, []⟩
    ∧ s.Clear.listener = s.listener
    ∧ s.Clear.srvHandle = s.srvHandle :=
  ⟨rfl, rfl, rfl, rfl, rfl⟩

/-- Claim C6: two `NewServer` calls drawing from disjoint allocation
ranges share no CAS or ActionCache instance, every server's Exec is
constructed over exactly the server's own ActionCache and CAS instances,
and a new server's stores start empty with a reset Exec. -/
theorem newServer_fresh_instances (n m : Nat) (h : (NewServer n).2 ≤ m) :
    ((NewServer n).1.cas.id ≠ (NewServer m).1.cas.id)
    ∧ ((NewServer n).1.actionCache.id ≠ (NewServer m).1.actionCache.id)
    ∧ ((NewServer n).1.cas.id ≠ (NewServer m).1.actionCache.id)
    ∧ ((NewServer n).1.actionCache.id ≠ (NewServer m).1.cas.id)
    ∧ ((NewServer n).1.exec.acRef = (NewServer n).1.actionCache.id)
    ∧ ((NewServer n).1.exec.casRef = (NewServer n).1.cas.id)
    ∧ ((NewServer m).1.exec.acRef = (NewServer m).1.actionCache.id)
    ∧ ((NewServer m).1.exec.casRef = (NewServer m).1.cas.id)
    ∧ ((NewServer n).1.cas.blobs = [])
    ∧ ((NewServer n).1.actionCache.results = [])
    ∧ ((NewServer n).1.exec =
        NewExec (NewServer n).1.actionCache (NewServer n).1.cas) := by
  refine ⟨?_, ?_, ?_, ?_, rfl, rfl, rfl, rfl, rfl, rfl, rfl⟩ <;>
  · simp only [NewServer, NewCAS, NewActionCache] at h ⊢
    omega

/-- Witness for C6 at a concrete pair of disjoint allocations. -/
theorem newServer_fresh_instances_witness :
    (NewServer 0).2 ≤ 4
    ∧ (((NewServer 0).1.cas.id ≠ (NewServer 4).1.cas.id)
      ∧ ((NewServer 0).1.actionCache.id ≠ (NewServer 4).1.actionCache.id)
      ∧ ((NewServer 0).1.cas.id ≠ (NewServer 4).1.actionCache.id)
      ∧ ((NewServer 0).1.actionCache.id ≠ (NewServer 4).1.cas.id)
      ∧ ((NewServer 0).1.exec.acRef = (NewServer 0).1.actionCache.id)
      ∧ ((NewServer 0).1.exec.casRef = (NewServer 0).1.cas.id)
      ∧ ((NewServer 4).1.exec.acRef = (NewServer 4).1.actionCache.id)
      ∧ ((NewServer 4).1.exec.casRef = (NewServer 4).1.cas.id)
      ∧ ((NewServer 0).1.cas.blobs = [])
      ∧ ((NewServer 0).1.actionCache.results = [])
      ∧ ((NewServer 0).1.exec =
          NewExec (NewServer 0).1.actionCache (NewServer 0).1.cas)) :=
  ⟨by decide, newServer_fresh_instances 0 4 (by decide)⟩

/-- Claim C9: the Action digest returned by `Set` is independent of the
result argument and of the option list: two calls on the same server,
command and execution options, differing only in `res` or `opts`, return
the same `acDg` (the Action is built and digested before any option is
applied, and options never touch the Action). -/
theorem set_acDg_independent (srv : Server) (cmd : Command)
    (opt : ExecutionOptions) (res₁ res₂ : CmdResult)
    (opts₁ opts₂ : List FakeOption) :
    (SetFake srv cmd opt res₁ opts₁).acDg =
      (SetFake srv cmd opt res₂ opts₂).acDg := by
  rcases h : BuildTreeFromInputs cmd.FillDefaultFieldValues.execRoot
      cmd.FillDefaultFieldValues.inputSpec with e | ft <;>
    simp [SetFake, h, PackageTree]

/-- Claim C10: `Set` fills the command's default field values in place
before computing any digest: the command it leaves behind is the
defaulted command, the returned command digest is computed over the
defaulted command's proto, and default-filling genuinely changes a
command whose defaultable fields are empty. -/
theorem set_fills_command_defaults (srv : Server) (cmd : Command)
    (opt : ExecutionOptions) (res : CmdResult) (opts : List FakeOption)
    (h : (SetFake srv cmd opt res opts).fatal = false) :
    (SetFake srv cmd opt res opts).cmd = cmd.FillDefaultFieldValues
    ∧ (SetFake srv cmd opt res opts).cmdDg =
        Digest.ofCommand cmd.FillDefaultFieldValues.ToREProto
    ∧ Command.FillDefaultFieldValues ⟨[], "", ⟨[], none⟩, 0, ""⟩ ≠
        (⟨[], "", ⟨[], none⟩, 0, ""⟩ : Command) := by
  rcases hb : BuildTreeFromInputs cmd.FillDefaultFieldValues.execRoot
      cmd.FillDefaultFieldValues.inputSpec with e | ft
  · simp [SetFake, hb] at h
  · exact ⟨by simp [SetFake, hb, PackageTree], by simp [SetFake, hb, PackageTree], by decide⟩

/-- Witness for C10 on a concrete readable command. -/
theorem set_fills_command_defaults_witness :
    (SetFake srvW cmdW optW resHit []).fatal = false
    ∧ ((SetFake srvW cmdW optW resHit []).cmd = cmdW.FillDefaultFieldValues
      ∧ (SetFake srvW cmdW optW resHit []).cmdDg =
          Digest.ofCommand cmdW.FillDefaultFieldValues.ToREProto
      ∧ Command.FillDefaultFieldValues ⟨[], "", ⟨[], none⟩, 0, ""⟩ ≠
          (⟨[], "", ⟨[], none⟩, 0, ""⟩ : Command)) :=
  ⟨by decide, set_fills_command_defaults srvW cmdW optW resHit [] (by decide)⟩

/-- Claim C7: when building or packaging the input tree fails, `Set`
fails the test fatally, returns the empty digest for both the command and
the Action, and leaves the fake server entirely unmodified. -/
theorem set_build_error_fatal (srv : Server) (cmd : Command)
    (opt : ExecutionOptions) (res : CmdResult) (opts : List FakeOption)
    (msg : String)
    (h : BuildTreeFromInputs cmd.FillDefaultFieldValues.execRoot
          cmd.FillDefaultFieldValues.inputSpec = Except.error msg
        ∨ ∃ ft, BuildTreeFromInputs cmd.FillDefaultFieldValues.execRoot
            cmd.FillDefaultFieldValues.inputSpec = Except.ok ft
          ∧ PackageTree ft = Except.error msg) :
    (SetFake srv cmd opt res opts).fatal = true
    ∧ (SetFake srv cmd opt res opts).cmdDg = Digest.emptyDg
    ∧ (SetFake srv cmd opt res opts).acDg = Digest.emptyDg
    ∧ (SetFake srv cmd opt res opts).server = srv := by
  rcases h with h | ⟨ft, hft, hpt⟩
  · exact ⟨by simp [SetFake, h], by simp [SetFake, h], by simp [SetFake, h],
      by simp [SetFake, h]⟩
  · simp [PackageTree] at hpt

/-- Witness for C7 on a command declaring an unreadable input. -/
theorem set_build_error_fatal_witness :
    (BuildTreeFromInputs cmdBad.FillDefaultFieldValues.execRoot
        cmdBad.FillDefaultFieldValues.inputSpec =
          Except.error "unreadable input: a.txt"
      ∨ ∃ ft, BuildTreeFromInputs cmdBad.FillDefaultFieldValues.execRoot
          cmdBad.FillDefaultFieldValues.inputSpec = Except.ok ft
        ∧ PackageTree ft = Except.error "unreadable input: a.txt")
    ∧ ((SetFake srvW cmdBad optW resHit []).fatal = true
      ∧ (SetFake srvW cmdBad optW resHit []).cmdDg = Digest.emptyDg
      ∧ (SetFake srvW cmdBad optW resHit []).acDg = Digest.emptyDg
      ∧ (SetFake srvW cmdBad optW resHit []).server = srvW) :=
  ⟨Or.inl rfl,
   set_build_error_fatal srvW cmdBad optW resHit [] "unreadable input: a.txt"
     (Or.inl rfl)⟩

/-- Claim C2: the Action digested into `acDg` carries exactly the
returned command digest as CommandDigest, the packaged tree's root digest
as InputRootDigest, `opt.DoNotCache` as DoNotCache, and a Timeout exactly
when `cmd.Timeout > 0`; and `cmdDg` is the digest of the defaulted
command's proto. Since digesting is injective in the model, this pins the
Action behind `acDg` completely, and `acDg` is returned as computed. -/
theorem set_action_digest_fields (srv : Server) (cmd : Command)
    (opt : ExecutionOptions) (res : CmdResult) (opts : List FakeOption)
    (ft : FileTree)
    (hft : BuildTreeFromInputs cmd.FillDefaultFieldValues.execRoot
        cmd.FillDefaultFieldValues.inputSpec = Except.ok ft) :
    (SetFake srv cmd opt res opts).acDg =
      Digest.ofAction (SetFake srv cmd opt res opts).cmdDg ft.rootDigest
        opt.doNotCache (if cmd.timeout > 0 then some cmd.timeout else none)
    ∧ (SetFake srv cmd opt res opts).cmdDg =
        Digest.ofCommand cmd.FillDefaultFieldValues.ToREProto := by
  simp only [Command.FillDefaultFieldValues] at hft
  exact ⟨by simp [SetFake, hft, PackageTree, Command.FillDefaultFieldValues],
    by simp [SetFake, hft, PackageTree, Command.FillDefaultFieldValues]⟩

/-- Witness for C2 on a concrete command with a positive timeout. -/
theorem set_action_digest_fields_witness :
    BuildTreeFromInputs cmdW.FillDefaultFieldValues.execRoot
        cmdW.FillDefaultFieldValues.inputSpec =
      Except.ok ⟨"/root", ["a.txt"]⟩
    ∧ ((SetFake srvW cmdW optW resHit []).acDg =
        Digest.ofAction (SetFake srvW cmdW optW resHit []).cmdDg
          (FileTree.rootDigest ⟨"/root", ["a.txt"]⟩) optW.doNotCache
          (if cmdW.timeout > 0 then some cmdW.timeout else none)
      ∧ (SetFake srvW cmdW optW resHit []).cmdDg =
          Digest.ofCommand cmdW.FillDefaultFieldValues.ToREProto) :=
  ⟨rfl, set_action_digest_fields srvW cmdW optW resHit [] ⟨"/root", ["a.txt"]⟩ rfl⟩

/-- Claim C3: on a timeout result `Set` forces gRPC DeadlineExceeded with
message "timeout"; on a remote-error result it forces the status
extracted from `res.Err` when it converts to one and otherwise Internal
with message "remote error"; and a local-error or interrupted result
configures nothing: the forced status and the ActionCache are left as the
fake had them. -/
theorem set_forced_status (srv : Server) (cmd : Command)
    (opt : ExecutionOptions) (res : CmdResult) (opts : List FakeOption)
    (ft : FileTree)
    (hft : BuildTreeFromInputs cmd.FillDefaultFieldValues.execRoot
        cmd.FillDefaultFieldValues.inputSpec = Except.ok ft) :
    (res.status = ResultStatus.timeout →
      (SetFake srv cmd opt res opts).server.exec.forcedStatus =
        some ⟨codeDeadlineExceeded, "timeout"⟩)
    ∧ (res.status = ResultStatus.remoteError →
      (SetFake srv cmd opt res opts).server.exec.forcedStatus =
        some (if (statusFromError res.err).2 then (statusFromError res.err).1
              else ⟨codeInternal, "remote error"⟩))
    ∧ (res.status = ResultStatus.localError ∨ res.status = ResultStatus.interrupted →
      (SetFake srv cmd opt res opts).server.exec.forcedStatus =
        srv.exec.forcedStatus
      ∧ (SetFake srv cmd opt res opts).server.actionCache = srv.actionCache) := by
  simp only [Command.FillDefaultFieldValues] at hft
  refine ⟨fun h => ?_, fun h => ?_, fun h => ?_⟩
  · simp [SetFake, hft, PackageTree, Command.FillDefaultFieldValues, h]
  · simp [SetFake, hft, PackageTree, Command.FillDefaultFieldValues, h]
  · rcases h with h | h <;>
      simp [SetFake, hft, PackageTree, Command.FillDefaultFieldValues, h,
        applyOpts_forcedStatus, applyOpts_actionCache]

/-- Witness for C3 on a concrete timeout result. -/
theorem set_forced_status_witness :
    (BuildTreeFromInputs cmdW.FillDefaultFieldValues.execRoot
        cmdW.FillDefaultFieldValues.inputSpec =
      Except.ok ⟨"/root", ["a.txt"]⟩)
    ∧ (((⟨ResultStatus.timeout, 1, GoError.nil⟩ : CmdResult).status = ResultStatus.timeout →
        (SetFake srvW cmdW optW ⟨ResultStatus.timeout, 1, GoError.nil⟩ []).server.exec.forcedStatus =
          some ⟨codeDeadlineExceeded, "timeout"⟩)
      ∧ ((⟨ResultStatus.timeout, 1, GoError.nil⟩ : CmdResult).status = ResultStatus.remoteError →
        (SetFake srvW cmdW optW ⟨ResultStatus.timeout, 1, GoError.nil⟩ []).server.exec.forcedStatus =
          some (if (statusFromError (⟨ResultStatus.timeout, 1, GoError.nil⟩ : CmdResult).err).2
                then (statusFromError (⟨ResultStatus.timeout, 1, GoError.nil⟩ : CmdResult).err).1
                else ⟨codeInternal, "remote error"⟩))
      ∧ ((⟨ResultStatus.timeout, 1, GoError.nil⟩ : CmdResult).status = ResultStatus.localError
          ∨ (⟨ResultStatus.timeout, 1, GoError.nil⟩ : CmdResult).status = ResultStatus.interrupted →
        (SetFake srvW cmdW optW ⟨ResultStatus.timeout, 1, GoError.nil⟩ []).server.exec.forcedStatus =
          srvW.exec.forcedStatus
        ∧ (SetFake srvW cmdW optW ⟨ResultStatus.timeout, 1, GoError.nil⟩ []).server.actionCache =
            srvW.actionCache)) :=
  ⟨rfl, set_forced_status srvW cmdW optW ⟨ResultStatus.timeout, 1, GoError.nil⟩ []
    ⟨"/root", ["a.txt"]⟩ rfl⟩

/-- Claim C1: on a cache-hit result, if the fake Exec's `cached` flag is
false when the switch runs (after all options were applied), `Set` writes
the assembled ActionResult into the fake ActionCache keyed by the
returned Action digest; if the flag is true, the call performs no
ActionCache write at all. -/
theorem set_cacheHit_populates_actionCache (srv : Server) (cmd : Command)
    (opt : ExecutionOptions) (res : CmdResult) (opts : List FakeOption)
    (ft : FileTree)
    (hres : res.status = ResultStatus.cacheHit)
    (hft : BuildTreeFromInputs cmd.FillDefaultFieldValues.execRoot
        cmd.FillDefaultFieldValues.inputSpec = Except.ok ft) :
    ((applyOpts opts ⟨res.exitCode, [], none, none, "", ""⟩ srv).2.exec.cached = false →
      (SetFake srv cmd opt res opts).server.actionCache.results =
        ((SetFake srv cmd opt res opts).acDg,
         (applyOpts opts ⟨res.exitCode, [], none, none, "", ""⟩ srv).1) ::
          srv.actionCache.results)
    ∧ ((applyOpts opts ⟨res.exitCode, [], none, none, "", ""⟩ srv).2.exec.cached = true →
      (SetFake srv cmd opt res opts).server.actionCache = srv.actionCache) := by
  simp only [Command.FillDefaultFieldValues] at hft
  constructor <;> intro hc <;>
    simp [SetFake, hft, PackageTree, Command.FillDefaultFieldValues, hres, hc,
      ActionCache.Put, applyOpts_actionCache]

/-- Witness for C1 on a fresh server (whose cached flag is false). -/
theorem set_cacheHit_populates_actionCache_witness :
    (⟨ResultStatus.cacheHit, 0, GoError.nil⟩ : CmdResult).status = ResultStatus.cacheHit
    ∧ BuildTreeFromInputs cmdW.FillDefaultFieldValues.execRoot
        cmdW.FillDefaultFieldValues.inputSpec = Except.ok ⟨"/root", ["a.txt"]⟩
    ∧ (((applyOpts [] ⟨(resHit).exitCode, [], none, none, "", ""⟩ srvW).2.exec.cached = false →
        (SetFake srvW cmdW optW resHit []).server.actionCache.results =
          ((SetFake srvW cmdW optW resHit []).acDg,
           (applyOpts [] ⟨(resHit).exitCode, [], none, none, "", ""⟩ srvW).1) ::
            srvW.actionCache.results)
      ∧ ((applyOpts [] ⟨(resHit).exitCode, [], none, none, "", ""⟩ srvW).2.exec.cached = true →
        (SetFake srvW cmdW optW resHit []).server.actionCache = srvW.actionCache)) :=
  ⟨rfl, rfl,
   set_cacheHit_populates_actionCache srvW cmdW optW resHit [] ⟨"/root", ["a.txt"]⟩ rfl rfl⟩

/-- Claim C8 (amended): the options are applied strictly in order, each
to the ActionResult and server left by the previous one, and the final
ActionResult — produced after all options — is what `Set` installs into
the fake Exec before the switch on the result status runs; consequently,
for a cache-hit result whose option list's last `ExecutionCacheHit`
element is `true` (so no later option overrides it), the switch observes
`cached = true` and the call performs no ActionCache write. -/
theorem set_opts_in_order_lastECH (srv : Server) (cmd : Command)
    (opt : ExecutionOptions) (res : CmdResult) (opts : List FakeOption)
    (ft : FileTree)
    (hft : BuildTreeFromInputs cmd.FillDefaultFieldValues.execRoot
        cmd.FillDefaultFieldValues.inputSpec = Except.ok ft) :
    (∀ (o : FakeOption) (rest : List FakeOption) (ar : ActionResult) (s : Server),
      applyOpts (o :: rest) ar s =
        applyOpts rest (o.Apply ar s).1 (o.Apply ar s).2)
    ∧ (SetFake srv cmd opt res opts).server.exec.actionResult =
        some (applyOpts opts ⟨res.exitCode, [], none, none, "", ""⟩ srv).1
    ∧ (res.status = ResultStatus.cacheHit → lastECH opts = some true →
        (applyOpts opts ⟨res.exitCode, [], none, none, "", ""⟩ srv).2.exec.cached = true
        ∧ (SetFake srv cmd opt res opts).server.actionCache = srv.actionCache) := by
  simp only [Command.FillDefaultFieldValues] at hft
  refine ⟨applyOpts_cons, ?_, fun hres hech => ⟨?_, ?_⟩⟩
  · rcases res with ⟨st, ec, err⟩
    cases st <;>
      simp [SetFake, hft, PackageTree, Command.FillDefaultFieldValues] <;>
      split <;> rfl
  · rw [applyOpts_cached, hech]
    rfl
  · simp [SetFake, hft, PackageTree, Command.FillDefaultFieldValues, hres,
      applyOpts_cached, hech, applyOpts_actionCache]

/-- Witness for the amended C8 with a single trailing cache-hit option. -/
theorem set_opts_in_order_lastECH_witness :
    BuildTreeFromInputs cmdW.FillDefaultFieldValues.execRoot
        cmdW.FillDefaultFieldValues.inputSpec = Except.ok ⟨"/root", ["a.txt"]⟩
    ∧ ((∀ (o : FakeOption) (rest : List FakeOption) (ar : ActionResult) (s : Server),
        applyOpts (o :: rest) ar s =
          applyOpts rest (o.Apply ar s).1 (o.Apply ar s).2)
      ∧ (SetFake srvW cmdW optW resHit
            [FakeOption.executionCacheHit true]).server.exec.actionResult =
          some (applyOpts [FakeOption.executionCacheHit true]
            ⟨(resHit).exitCode, [], none, none, "", ""⟩ srvW).1
      ∧ ((resHit).status = ResultStatus.cacheHit →
          lastECH [FakeOption.executionCacheHit true] = some true →
          (applyOpts [FakeOption.executionCacheHit true]
              ⟨(resHit).exitCode, [], none, none, "", ""⟩ srvW).2.exec.cached = true
          ∧ (SetFake srvW cmdW optW resHit
              [FakeOption.executionCacheHit true]).server.actionCache =
              srvW.actionCache)) :=
  ⟨rfl, set_opts_in_order_lastECH srvW cmdW optW resHit
    [FakeOption.executionCacheHit true] ⟨"/root", ["a.txt"]⟩ rfl⟩

/-- Counterexample to C8 as stated: an option list that includes
`ExecutionCacheHit true` but ends with `ExecutionCacheHit false`; on a
cache-hit result the switch observes `cached = false` and an ActionCache
write does occur, so merely including `ExecutionCacheHit(true)` does not
prevent the write. -/
theorem set_cacheHit_opts_counterexample :
    FakeOption.executionCacheHit true ∈
      [FakeOption.executionCacheHit true, FakeOption.executionCacheHit false]
    ∧ (resHit).status = ResultStatus.cacheHit
    ∧ (applyOpts [FakeOption.executionCacheHit true, FakeOption.executionCacheHit false]
        ⟨(resHit).exitCode, [], none, none, "", ""⟩ srvW).2.exec.cached = false
    ∧ (SetFake srvW cmdW optW resHit
        [FakeOption.executionCacheHit true, FakeOption.executionCacheHit false]).server.actionCache ≠
      srvW.actionCache := by
  refine ⟨by decide, rfl, by decide, by decide⟩
